import Mathlib

/-!
Verification of the gardenbook-web chat service core: a shallow embedding of
`gardenbook_chat_api/main.py` (the `/chat` handler) and
`gardenbook_chat_api/gardenbook_chat/gardenbook_chat.py` (`make_graph`), with
theorems about context building, role filtering, the session lifecycle and the
error paths.  External collaborators (the `pytz` timezone library and the wall
clock, the user-data HTTP service, the MCP tool client and the LLM agent) are
modelled as oracles supplied to the pipeline, so every definition below is a
total function of the request and those oracles.
-/

namespace Gardenbook

/-- One chat turn of the HTTP request body (`ChatMessage` in `main.py`). -/
structure ChatMessage where
  role : String
  content : String
deriving DecidableEq

/-- The `/chat` request body (`ChatRequest` in `main.py`): an ordered turn
list, an optional user id and an optional IANA timezone string. -/
structure ChatRequest where
  messages : List ChatMessage
  userId : Option String
  user_timezone : Option String
deriving DecidableEq

/-- A LangChain message built by the handler: `HumanMessage` for role
`"user"`, `AIMessage` for role `"assistant"`. -/
inductive LCMessage where
  | human (content : String)
  | ai (content : String)
deriving DecidableEq

/-- The `.content` field of a LangChain message. -/
def LCMessage.content : LCMessage → String
  | .human c => c
  | .ai c => c

/-- `main.py` lines 56-61: the conversion loop from request turns to
LangChain messages.  Role `"user"` appends a `HumanMessage`, role
`"assistant"` appends an `AIMessage`, and any other role appends nothing. -/
def toLangchainMessages : List ChatMessage → List LCMessage
  | [] => []
  | m :: rest =>
    if m.role = "user" then .human m.content :: toLangchainMessages rest
    else if m.role = "assistant" then .ai m.content :: toLangchainMessages rest
    else toLangchainMessages rest

/-- A turn is replayed iff its role is `"user"` or `"assistant"`. -/
def keepTurn (m : ChatMessage) : Bool :=
  m.role == "user" || m.role == "assistant"

/-- The LangChain message a retained turn becomes. -/
def turnToLC (m : ChatMessage) : LCMessage :=
  if m.role == "user" then .human m.content else .ai m.content

/-- Python `str.isspace()` for one character: the CPython whitespace set —
tab through carriage return (`\x09`-`\x0d`, which includes vertical tab and
form feed), the separators `\x1c`-`\x1f`, space, next line `\x85`,
no-break space `\xa0`, ogham space mark `\x1680`, the Unicode spaces
`\x2000`-`\x200a`, line and paragraph separators `\x2028`/`\x2029`, narrow
no-break space `\x202f`, medium mathematical space `\x205f`, and ideographic
space `\x3000`. -/
def pyIsSpace (c : Char) : Bool :=
  (0x09 ≤ c.toNat && c.toNat ≤ 0x0d)
  || (0x1c ≤ c.toNat && c.toNat ≤ 0x1f)
  || c.toNat == 0x20
  || c.toNat == 0x85
  || c.toNat == 0xa0
  || c.toNat == 0x1680
  || (0x2000 ≤ c.toNat && c.toNat ≤ 0x200a)
  || c.toNat == 0x2028
  || c.toNat == 0x2029
  || c.toNat == 0x202f
  || c.toNat == 0x205f
  || c.toNat == 0x3000

/-- Python `str.strip()` with no argument: remove leading and trailing
`str.isspace()` characters.  (Defined by structural recursion on the
character list so that it evaluates in the kernel.) -/
def pyStrip (s : String) : String :=
  ⟨((s.data.dropWhile pyIsSpace).reverse.dropWhile pyIsSpace).reverse⟩

/-- Python `str.replace(old, new)` for a single-character pattern and
replacement, which is how the source uses it (`timezone.replace('_', ' ')`):
every occurrence of the character is replaced. -/
def pyReplaceChar (old new : Char) (s : String) : String :=
  ⟨s.data.map (fun c => if c = old then new else c)⟩

/-- Oracle for the `pytz` timezone database and the wall clock at the instant
of the request.  `known tz = true` iff `pytz.timezone tz` succeeds;
`fmtIn tz` is `datetime.now(pytz.timezone(tz)).strftime("%B %d, %Y at %I:%M %p %Z")`
for a zone the library resolves; `fmtUTC` is the fallback
`datetime.now(pytz.UTC).strftime("%B %d, %Y at %I:%M %p UTC")`.  The two proof
fields record facts about `pytz`: `"UTC"` always resolves, and the empty
string is not a recognized identifier. -/
structure TZEnv where
  known : String → Bool
  fmtIn : String → String
  fmtUTC : String
  utc_known : known "UTC" = true
  empty_unknown : known "" = false

/-- `make_graph` lines 46-55: timezone resolution.  Start from `"UTC"`; when a
truthy (non-empty) `user_timezone` is supplied and `pytz.timezone` resolves
it, use it; when `pytz.timezone` raises `UnknownTimeZoneError` the exception
is caught, a warning is logged, and `"UTC"` is kept. -/
def resolveTimezone (env : TZEnv) (user_timezone : Option String) : String :=
  match user_timezone with
  | none => "UTC"
  | some tz =>
    if tz = "" then "UTC"
    else if env.known tz then tz
    else "UTC"

/-- `make_graph` lines 57-66: format the current time in the resolved zone and
compute the location qualifier (`" in "` plus the zone with underscores
replaced by spaces, suppressed for `"UTC"`).  The `try` body fails exactly
when `pytz.timezone` does not resolve the zone (`strftime` on an aware
datetime is total); the `except` falls back to a UTC timestamp with no
qualifier.  Returns `(datetime_str, location_info)`. -/
def datetimeInfo (env : TZEnv) (timezone : String) : String × String :=
  if env.known timezone then
    (env.fmtIn timezone,
     if timezone ≠ "UTC" then " in " ++ pyReplaceChar '_' ' ' timezone else "")
  else
    (env.fmtUTC, "")

/-- The text of the base prompt (`make_graph` lines 69-71) up to the point
where `location_info` is interpolated. -/
def promptHead : String :=
  "You are Gardenbook's AI gardening assistant. You provide helpful advice about plants, gardening, and plant care.\nYou have access to a set of tools that can help answer questions about plants in the user's garden.\nCurrent date and time"

/-- The text of the base prompt (`make_graph` lines 71-72) after the point
where `datetime_str` is interpolated. -/
def promptTail : String :=
  ".\nAlways be friendly, helpful, and focus on gardening-related topics."

/-- `make_graph` lines 69-72: the fixed persona block with the current-date
sentence, as a function of the interpolated `location_info` and
`datetime_str`. -/
def basePrompt (location_info datetime_str : String) : String :=
  promptHead ++ location_info ++ " is " ++ datetime_str ++ promptTail

/-- The text of the encyclopedia section (`make_graph` lines 77-81) before
the interpolated user text. -/
def encHead : String :=
  "\n\nUSER'S GARDENING ENCYCLOPEDIA:\nThe following information describes the user's specific gardening context. Consider this information when providing advice:\n\n"

/-- The text of the encyclopedia section (`make_graph` lines 82-84) after
the interpolated user text. -/
def encTail : String :=
  "\n\nAlways tailor your gardening advice to the user's specific context above."

/-- `make_graph` lines 77-84: the delimited encyclopedia section appended to
the system prompt, with the user's text interpolated verbatim. -/
def encyclopediaSection (encyclopedia_data : String) : String :=
  encHead ++ encyclopedia_data ++ encTail

/-- Python truthiness of the guard at `make_graph` line 75
(`if encyclopedia_data and encyclopedia_data.strip():`): the value is not
`None`, not the empty string, and does not strip to the empty string. -/
def includeEncyclopedia : Option String → Bool
  | none => false
  | some e => e != "" && pyStrip e != ""

/-- `make_graph` lines 46-86: the full system prompt built for the agent from
the optional encyclopedia text and the optional user timezone. -/
def systemPrompt (env : TZEnv) (encyclopedia_data user_timezone : Option String) : String :=
  let timezone := resolveTimezone env user_timezone
  let info := datetimeInfo env timezone
  let base := basePrompt info.2 info.1
  match encyclopedia_data with
  | some e => if e != "" && pyStrip e != "" then base ++ encyclopediaSection e else base
  | none => base

/-- The system prompt without any encyclopedia section: just the persona block
and the current-date sentence for the resolved timezone. -/
def baseOnlyPrompt (env : TZEnv) (user_timezone : Option String) : String :=
  let timezone := resolveTimezone env user_timezone
  let info := datetimeInfo env timezone
  basePrompt info.2 info.1

/-- `pat` occurs verbatim inside `s` (stated over the character lists). -/
def IsSubstring (pat s : String) : Prop :=
  ∃ l r : List Char, s.data = l ++ pat.data ++ r

/-- Configuration the code passes to `ChatAnthropic` (`make_graph` lines
89-93): model name, sampling temperature and the system prompt. -/
structure LLMConfig where
  model : String
  temperature : Nat
  system : String
deriving DecidableEq

/-- The agent returned by `create_react_agent(llm, tools)` (`make_graph` line
96): a reasoning loop over the LLM binding and the tool list the MCP client
reported.  Tools are identified by name here. -/
structure Agent where
  llm : LLMConfig
  tools : List String
deriving DecidableEq

/-- `make_graph` lines 88-97: the agent object the context manager yields,
given the tool list obtained from `client.get_tools()`. -/
def makeGraphAgent (env : TZEnv) (tools : List String)
    (encyclopedia_data user_timezone : Option String) : Agent :=
  { llm :=
      { model := "claude-3-7-sonnet-latest"
        temperature := 0
        system := systemPrompt env encyclopedia_data user_timezone }
    tools := tools }

/-- A call to `requests.get`: the URL and the `timeout` keyword argument in
seconds; `none` is the `requests` default of no timeout at all. -/
structure HttpGetCall where
  url : String
  timeout : Option Nat
deriving DecidableEq

/-- The encyclopedia lookup issued at `main.py` line 71:
`requests.get(f"{api_url}/api/users/{userId}/encyclopedia")`.  No `timeout`
keyword appears at the call site, so the field is `none`. -/
def encyclopediaCall (api_url userId : String) : HttpGetCall :=
  { url := api_url ++ "/api/users/" ++ userId ++ "/encyclopedia"
    timeout := none }

/-- Outcome of the `requests.get` encyclopedia lookup: an HTTP response with
its status code and the optional `"encyclopedia"` field of its JSON body, or
a raised exception (connection failure, timeout, or a body that fails to
parse as JSON). -/
inductive FetchRes where
  | success (status : Nat) (encyclopedia : Option String)
  | raise (msg : String)
deriving DecidableEq

/-- The fetch outcomes the spec calls failures: any non-200 status, or a
raised network/timeout error. -/
def fetchFailed : FetchRes → Bool
  | .success status _ => status != 200
  | .raise _ => true

/-- Outcome of `agent.ainvoke` (`main.py` line 96): the `"messages"` list of
the returned mapping, or a raised exception. -/
inductive InvokeRes where
  | ok (messages : List LCMessage)
  | raise (msg : String)
deriving DecidableEq

/-- Oracles for one request's external effects: the timezone library and
clock, the configured user-data base URL (`NODE_API_URL` or its default),
the user-data service's response, the outcome of
`MultiServerMCPClient.__aenter__` plus capability discovery (an error
message, or the discovered tool names), and the agent invocation outcome as
a function of the agent object invoked. -/
structure World where
  tz : TZEnv
  api_url : String
  fetch : FetchRes
  clientStart : Except String (List String)
  invoke : Agent → InvokeRes

/-- Observable events of one request, in the order they happen. -/
inductive Ev where
  | fetchCall (call : HttpGetCall)
  | clientOpen
  | clientClose
  | agentInvoke
deriving DecidableEq

/-- `true` exactly on the Tool Client lifecycle events. -/
def isClientEv : Ev → Bool
  | .clientOpen => true
  | .clientClose => true
  | _ => false

/-- `main.py` lines 63-82: fetch encyclopedia data when a truthy `userId` is
present.  On status 200 take the JSON `"encyclopedia"` field (absent field
defaults to `""`); on any other status only a message is printed; a raised
exception is caught by the inner `except`, printed, and the chat continues.
In every non-200 case `encyclopedia_data` stays `None`.  Returns the
resulting `encyclopedia_data` and the trace of HTTP calls issued. -/
def fetchEncyclopedia (w : World) (userId : Option String) :
    Option String × List Ev :=
  match userId with
  | none => (none, [])
  | some uid =>
    if uid = "" then (none, [])
    else
      (match w.fetch with
       | .success status enc => if status = 200 then some (enc.getD "") else none
       | .raise _ => none,
       [.fetchCall (encyclopediaCall w.api_url uid)])

/-- `main.py` lines 84-88: the timezone argument passed to `make_graph` is
the request's `user_timezone` only when it is truthy (non-empty). -/
def requestTimezone (req : ChatRequest) : Option String :=
  match req.user_timezone with
  | none => none
  | some tz => if tz = "" then none else some tz

/-- The operating prompt the handler's `make_graph` call builds for a
request. -/
def promptUsed (w : World) (req : ChatRequest) : String :=
  systemPrompt w.tz (fetchEncyclopedia w req.userId).1 (requestTimezone req)

/-- The agent object the request's Agent Session yields, when session
establishment succeeds; `none` when `MultiServerMCPClient` startup raises. -/
def agentUsed (w : World) (req : ChatRequest) : Option Agent :=
  match w.clientStart with
  | .error _ => none
  | .ok tools =>
    some (makeGraphAgent w.tz tools (fetchEncyclopedia w req.userId).1
      (requestTimezone req))

/-- HTTP-level result of the `/chat` handler: a `ChatResponse` body, or an
`HTTPException` with status code and detail message. -/
inductive ChatResult where
  | success (response : String)
  | httpError (status : Nat) (detail : String)
deriving DecidableEq

/-- The `/chat` handler (`main.py` lines 52-109), with all external effects
drawn from the oracle `w`.  Returns the HTTP-level result and the ordered
trace of observable events.  The `async with make_graph(...)` block is the
Agent Session: `clientOpen`/`clientClose` are the MCP client's
`__aenter__`/`__aexit__`, and the async-with discipline runs `__aexit__` on
the normal exit and when the body raises.  The branches:
* `clientStart` failing: `__aenter__` raised, no connection to close; the
  inner `except` re-raises and the outer boundary maps the error to
  HTTP 500 with detail `"Error processing chat: " ++ message`.
* invocation returning a message list: the reply is `messages[-1].content`;
  on an empty list the indexing raises `IndexError` (message
  `"list index out of range"`) inside the block, the client is still
  closed, and the outer boundary maps it to HTTP 500.
* invocation raising: the client is closed and the outer boundary maps the
  error to HTTP 500. -/
def chatHandler (w : World) (req : ChatRequest) : ChatResult × List Ev :=
  let fetched := fetchEncyclopedia w req.userId
  match w.clientStart with
  | .error e =>
    (.httpError 500 ("Error processing chat: " ++ e), fetched.2)
  | .ok tools =>
    let agent := makeGraphAgent w.tz tools fetched.1 (requestTimezone req)
    match w.invoke agent with
    | .ok messages =>
      match messages.getLast? with
      | some m =>
        (.success m.content,
         fetched.2 ++ [.clientOpen, .agentInvoke, .clientClose])
      | none =>
        (.httpError 500 "Error processing chat: list index out of range",
         fetched.2 ++ [.clientOpen, .agentInvoke, .clientClose])
    | .raise e =>
      (.httpError 500 ("Error processing chat: " ++ e),
       fetched.2 ++ [.clientOpen, .agentInvoke, .clientClose])

/-- A concrete timezone oracle: the database resolves `"UTC"` and
`"America/New_York"`, and the clock reads a fixed instant. -/
def envEx : TZEnv where
  known := fun s => s == "UTC" || s == "America/New_York"
  fmtIn := fun tz => "April 15, 2023 at 02:30 PM " ++ tz
  fmtUTC := "April 15, 2023 at 02:30 PM UTC"
  utc_known := rfl
  empty_unknown := rfl

/-- A concrete world in which every collaborator succeeds. -/
def wEx : World where
  tz := envEx
  api_url := "http://gardenbook-db-api:3001"
  fetch := .success 200 (some "Soil Type: Loamy")
  clientStart := .ok ["get_plants"]
  invoke := fun _ =>
    .ok [.human "How often should I water a cactus?", .ai "About every two weeks."]

/-- A concrete world in which the user-data service answers 503. -/
def wFetchFail : World :=
  { wEx with fetch := .success 503 none }

/-- A concrete world in which `MultiServerMCPClient` startup raises. -/
def wStartFail : World :=
  { wEx with clientStart := .error "MCP startup failed" }

/-- A concrete world in which the agent returns an empty message list. -/
def wEmpty : World :=
  { wEx with invoke := fun _ => .ok [] }

/-- A concrete request with a user id and a timezone. -/
def reqEx : ChatRequest where
  messages := [⟨"user", "How often should I water a cactus?"⟩]
  userId := some "u1"
  user_timezone := some "America/New_York"

/-! ## Helper lemmas -/

theorem string_append_data (a b : String) : (a ++ b).data = a.data ++ b.data := rfl

theorem isSubstring_of_parts (p a b s : String) (h : s = a ++ p ++ b) :
    IsSubstring p s :=
  ⟨a.data, b.data, by subst h; rfl⟩

theorem isSubstring_append_right (p s t : String) (h : IsSubstring p s) :
    IsSubstring p (s ++ t) := by
  obtain ⟨l, r, hs⟩ := h
  exact ⟨l, r ++ t.data, by simp [string_append_data, hs]⟩

/-- The prompt with no encyclopedia text is exactly the base-only prompt. -/
theorem systemPrompt_none (env : TZEnv) (tzOpt : Option String) :
    systemPrompt env none tzOpt = baseOnlyPrompt env tzOpt := rfl

/-- The fetch step issues no Tool Client lifecycle events. -/
theorem fetch_trace_filter_clients (w : World) (uid : Option String) :
    (fetchEncyclopedia w uid).2.filter isClientEv = [] := by
  unfold fetchEncyclopedia
  cases uid with
  | none => rfl
  | some u =>
    by_cases h : u = ""
    · simp [h]
    · simp [h, isClientEv]

/-- The fetch step never invokes the agent. -/
theorem fetch_trace_no_invoke (w : World) (uid : Option String) :
    Ev.agentInvoke ∉ (fetchEncyclopedia w uid).2 := by
  unfold fetchEncyclopedia
  cases uid with
  | none => simp
  | some u =>
    by_cases h : u = ""
    · simp [h]
    · simp [h]

/-- The handler's HTTP-level result as a case tree over the oracles. -/
theorem chatHandler_result (w : World) (req : ChatRequest) :
    (chatHandler w req).1 =
      (match w.clientStart with
       | .error e => .httpError 500 ("Error processing chat: " ++ e)
       | .ok tools =>
         match w.invoke (makeGraphAgent w.tz tools
             (fetchEncyclopedia w req.userId).1 (requestTimezone req)) with
         | .ok messages =>
           match messages.getLast? with
           | some m => .success m.content
           | none => .httpError 500 "Error processing chat: list index out of range"
         | .raise e => .httpError 500 ("Error processing chat: " ++ e)) := by
  cases hc : w.clientStart with
  | error e => simp [chatHandler, hc]
  | ok tools =>
    cases hi : w.invoke (makeGraphAgent w.tz tools
        (fetchEncyclopedia w req.userId).1 (requestTimezone req)) with
    | ok messages =>
      cases hm : messages.getLast? with
      | some m => simp [chatHandler, hc, hi, hm]
      | none => simp [chatHandler, hc, hi, hm]
    | raise e => simp [chatHandler, hc, hi]

/-- The handler's event trace as a case tree over the oracles. -/
theorem chatHandler_trace (w : World) (req : ChatRequest) :
    (chatHandler w req).2 =
      (fetchEncyclopedia w req.userId).2 ++
        (match w.clientStart with
         | .error _ => []
         | .ok _ => [Ev.clientOpen, Ev.agentInvoke, Ev.clientClose]) := by
  cases hc : w.clientStart with
  | error e => simp [chatHandler, hc]
  | ok tools =>
    cases hi : w.invoke (makeGraphAgent w.tz tools
        (fetchEncyclopedia w req.userId).1 (requestTimezone req)) with
    | ok messages =>
      cases hm : messages.getLast? with
      | some m => simp [chatHandler, hc, hi, hm]
      | none => simp [chatHandler, hc, hi, hm]
    | raise e => simp [chatHandler, hc, hi]

theorem pyStrip_empty : pyStrip "" = "" := rfl

/-- The built prompt is the base-only prompt, plus the encyclopedia section
exactly when the truthy-and-non-blank guard of line 75 holds. -/
theorem systemPrompt_split (env : TZEnv) (ed tzOpt : Option String) :
    (includeEncyclopedia ed = false →
      systemPrompt env ed tzOpt = baseOnlyPrompt env tzOpt)
    ∧ (∀ e, ed = some e → includeEncyclopedia ed = true →
      systemPrompt env ed tzOpt = baseOnlyPrompt env tzOpt ++ encyclopediaSection e) := by
  constructor
  · intro h
    cases ed with
    | none => rfl
    | some e =>
      have hg : (e != "" && pyStrip e != "") = false := by
        simpa [includeEncyclopedia] using h
      simp [systemPrompt, baseOnlyPrompt, hg]
  · intro e he h
    subst he
    have hg : (e != "" && pyStrip e != "") = true := by
      simpa [includeEncyclopedia] using h
    simp [systemPrompt, baseOnlyPrompt, hg]

/-- The interpolated `location_info` occurs verbatim in the base prompt. -/
theorem isSubstring_basePrompt_loc (loc dt : String) :
    IsSubstring loc (basePrompt loc dt) :=
  ⟨promptHead.data, (" is ").data ++ dt.data ++ promptTail.data, by
    simp [basePrompt, string_append_data, List.append_assoc]⟩

/-! ## Claim theorems -/

/-- C1: for every chat request in which the Agent Session is acquired (the
Tool Client connection is opened), the Tool Client connection is closed
before the request handler finishes, on every exit path — the projection of
the event trace onto the lifecycle events is exactly one open followed by
one close whenever the session is acquired, whatever the invocation outcome
(normal reply, raised error, or empty message list). -/
theorem chat_session_released_on_every_path (w : World) (req : ChatRequest) :
    (chatHandler w req).2.filter isClientEv =
      (match w.clientStart with
       | .ok _ => [Ev.clientOpen, Ev.clientClose]
       | .error _ => []) := by
  rw [chatHandler_trace, List.filter_append, fetch_trace_filter_clients]
  cases w.clientStart <;> simp [isClientEv]

/-- C5: the sequence replayed to the agent is exactly the subsequence of
turns whose role is `"user"` or `"assistant"`, in their original order and
with their content preserved; turns with any other role are dropped without
an error. -/
theorem chat_turns_filtered_in_order (msgs : List ChatMessage) :
    toLangchainMessages msgs = (msgs.filter keepTurn).map turnToLC := by
  induction msgs with
  | nil => rfl
  | cons m rest ih =>
    by_cases h1 : m.role = "user"
    · simp [toLangchainMessages, keepTurn, turnToLC, h1, ih]
    · by_cases h2 : m.role = "assistant"
      · simp [toLangchainMessages, keepTurn, turnToLC, h1, h2, ih]
      · simp [toLangchainMessages, keepTurn, turnToLC, h1, h2, ih]

/-- C3: a valid timezone different from `"UTC"` puts the qualifier `" in "`
followed by the identifier with underscores replaced by spaces into the
operating prompt; an unresolvable identifier yields the same prompt as an
absent one (the `UnknownTimeZoneError` is caught, never raised out of the
builder, which is total here), `"UTC"` yields the same prompt as an absent
timezone, and the absent-timezone base prompt carries an empty location
qualifier and the UTC timestamp. -/
theorem context_timezone_qualifier (env : TZEnv) (ed : Option String) (tz : String) :
    (env.known tz = true → tz ≠ "UTC" →
      IsSubstring (" in " ++ pyReplaceChar '_' ' ' tz) (systemPrompt env ed (some tz)))
    ∧ (env.known tz = false →
      systemPrompt env ed (some tz) = systemPrompt env ed none)
    ∧ systemPrompt env ed (some "UTC") = systemPrompt env ed none
    ∧ baseOnlyPrompt env none = basePrompt "" (env.fmtIn "UTC") := by
  refine ⟨?_, ?_, ?_, ?_⟩
  · intro hk hne
    have h0 : tz ≠ "" := by
      intro h
      rw [h, env.empty_unknown] at hk
      cases hk
    have hbase : baseOnlyPrompt env (some tz) =
        basePrompt (" in " ++ pyReplaceChar '_' ' ' tz) (env.fmtIn tz) := by
      simp [baseOnlyPrompt, resolveTimezone, datetimeInfo, h0, hk, hne]
    cases hinc : includeEncyclopedia ed with
    | false =>
      rw [(systemPrompt_split env ed (some tz)).1 hinc, hbase]
      exact isSubstring_basePrompt_loc _ _
    | true =>
      obtain ⟨e, he⟩ : ∃ e, ed = some e := by
        cases ed with
        | none => simp [includeEncyclopedia] at hinc
        | some e => exact ⟨e, rfl⟩
      rw [(systemPrompt_split env ed (some tz)).2 e he hinc, hbase]
      exact isSubstring_append_right _ _ _ (isSubstring_basePrompt_loc _ _)
  · intro hk
    by_cases h0 : tz = ""
    · simp [systemPrompt, resolveTimezone, h0]
    · simp [systemPrompt, resolveTimezone, h0, hk]
  · simp [systemPrompt, resolveTimezone, env.utc_known]
  · simp [baseOnlyPrompt, resolveTimezone, datetimeInfo, env.utc_known]

/-- C4: an absent, empty or whitespace-only `knowledgeText` leaves the
operating prompt equal to the base-only prompt (the knowledge-base section
and any placeholder are omitted); a non-blank `knowledgeText` makes the
prompt the base-only prompt followed by the delimited encyclopedia section,
which contains the text verbatim. -/
theorem context_knowledge_section (env : TZEnv) (tzOpt ed : Option String) :
    ((ed = none ∨ ed = some "" ∨ (∃ e, ed = some e ∧ pyStrip e = "")) →
      systemPrompt env ed tzOpt = baseOnlyPrompt env tzOpt)
    ∧ (∀ e, ed = some e → pyStrip e ≠ "" →
      systemPrompt env ed tzOpt = baseOnlyPrompt env tzOpt ++ encyclopediaSection e
      ∧ IsSubstring e (systemPrompt env ed tzOpt)) := by
  constructor
  · intro h
    apply (systemPrompt_split env ed tzOpt).1
    rcases h with h | h | ⟨e, he, hs⟩
    · simp [h, includeEncyclopedia]
    · simp [h, includeEncyclopedia]
    · simp [he, includeEncyclopedia, hs]
  · intro e he hs
    have h0 : e ≠ "" := by
      intro h
      rw [h, pyStrip_empty] at hs
      exact hs rfl
    have hinc : includeEncyclopedia ed = true := by
      simp [he, includeEncyclopedia, h0, hs]
    have heq := (systemPrompt_split env ed tzOpt).2 e he hinc
    refine ⟨heq, ?_⟩
    rw [heq]
    exact ⟨(baseOnlyPrompt env tzOpt).data ++ encHead.data, encTail.data, by
      simp [encyclopediaSection, string_append_data, List.append_assoc]⟩

/-- C2: when a truthy `userId` is present and the encyclopedia lookup
returns a non-200 status or raises, the exception is caught inside the
pipeline: `encyclopedia_data` stays `None`, the operating prompt has no
knowledge-base section, and the HTTP-level outcome is the same as for a
request with no `userId` at all — the fetch failure is never fatal. -/
theorem chat_fetch_failure_not_fatal (w : World) (req : ChatRequest) (uid : String)
    (h1 : req.userId = some uid) (h2 : uid ≠ "")
    (h3 : fetchFailed w.fetch = true) :
    (fetchEncyclopedia w req.userId).1 = none
    ∧ promptUsed w req = baseOnlyPrompt w.tz (requestTimezone req)
    ∧ (chatHandler w req).1 = (chatHandler w { req with userId := none }).1 := by
  have he : (fetchEncyclopedia w req.userId).1 = none := by
    rw [h1]
    unfold fetchEncyclopedia
    cases hf : w.fetch with
    | raise m => simp [h2]
    | success status enc =>
      have hs : status ≠ 200 := by
        intro h
        rw [hf, h] at h3
        simp [fetchFailed] at h3
      simp [h2, hs]
  refine ⟨he, ?_, ?_⟩
  · rw [promptUsed, he, systemPrompt_none]
  · rw [chatHandler_result, chatHandler_result, he]
    rfl

/-- C6: when `MultiServerMCPClient` startup (tool-provider launch or
capability discovery) raises, the request fails with HTTP 500 carrying the
agent-creation error, and the agent invocation never happens. -/
theorem chat_session_failure_is_500 (w : World) (req : ChatRequest) (e : String)
    (h : w.clientStart = .error e) :
    (chatHandler w req).1 = .httpError 500 ("Error processing chat: " ++ e)
    ∧ Ev.agentInvoke ∉ (chatHandler w req).2 := by
  constructor
  · rw [chatHandler_result, h]
  · rw [chatHandler_trace, h]
    simp [fetch_trace_no_invoke]

/-- C7: whenever the Agent Session is acquired, the agent is the reasoning
loop over exactly the Tool Client's capability set, with the operating
prompt as its system instructions and temperature 0. -/
theorem chat_agent_configuration (w : World) (req : ChatRequest) (tools : List String)
    (h : w.clientStart = .ok tools) :
    agentUsed w req = some (makeGraphAgent w.tz tools
        (fetchEncyclopedia w req.userId).1 (requestTimezone req))
    ∧ ∀ a, agentUsed w req = some a →
        a.tools = tools ∧ a.llm.temperature = 0 ∧ a.llm.system = promptUsed w req := by
  have hu : agentUsed w req = some (makeGraphAgent w.tz tools
      (fetchEncyclopedia w req.userId).1 (requestTimezone req)) := by
    simp [agentUsed, h]
  refine ⟨hu, ?_⟩
  intro a ha
  rw [hu] at ha
  simp only [Option.some.injEq] at ha
  subst ha
  exact ⟨rfl, rfl, rfl⟩

/-- C8: a successful chat response is exactly the content of the last
message in the list the agent invocation returned. -/
theorem chat_reply_is_last_message (w : World) (req : ChatRequest) (resp : String)
    (h : (chatHandler w req).1 = .success resp) :
    ∃ tools messages m,
      w.clientStart = .ok tools
      ∧ w.invoke (makeGraphAgent w.tz tools
          (fetchEncyclopedia w req.userId).1 (requestTimezone req)) = .ok messages
      ∧ messages.getLast? = some m
      ∧ resp = m.content := by
  rw [chatHandler_result] at h
  split at h
  · simp at h
  · rename_i tools hc
    split at h
    · rename_i messages hi
      split at h
      · rename_i m hm
        simp only [ChatResult.success.injEq] at h
        exact ⟨tools, messages, m, hc, hi, hm, h.symm⟩
      · simp at h
    · simp at h

/-- C10: when the session is acquired and the agent invocation succeeds
with an empty message list, the `[-1]` indexing raises and the request is
surfaced as HTTP 500; no `ChatResponse` is produced. -/
theorem chat_empty_messages_500 (w : World) (req : ChatRequest) (tools : List String)
    (h1 : w.clientStart = .ok tools)
    (h2 : w.invoke (makeGraphAgent w.tz tools
        (fetchEncyclopedia w req.userId).1 (requestTimezone req)) = .ok []) :
    (chatHandler w req).1 =
      .httpError 500 "Error processing chat: list index out of range"
    ∧ ∀ resp, (chatHandler w req).1 ≠ .success resp := by
  have hr : (chatHandler w req).1 =
      .httpError 500 "Error processing chat: list index out of range" := by
    simp [chatHandler_result, h1, h2]
  refine ⟨hr, fun resp hresp => ?_⟩
  rw [hr] at hresp
  cases hresp

/-- C9 counterexample: on a concrete request with a user id, the handler
issues the encyclopedia lookup with `timeout := none` — `requests.get` at
`main.py` line 71 passes no `timeout` keyword — so the claim that the call
carries a bounded timeout fails. -/
theorem fetch_timeout_cex :
    Ev.fetchCall ⟨"http://gardenbook-db-api:3001/api/users/u1/encyclopedia", none⟩
      ∈ (chatHandler wEx reqEx).2
    ∧ ¬ ∃ t : Nat,
        (encyclopediaCall "http://gardenbook-db-api:3001" "u1").timeout = some t := by
  constructor
  · decide
  · rintro ⟨t, ht⟩
    simp [encyclopediaCall] at ht

/-- C9 amended: every encyclopedia lookup the handler issues carries no
timeout at all (the `requests` default), so a slow user-data service is not
bounded by this call site. -/
theorem fetch_call_has_no_timeout (w : World) (req : ChatRequest) (call : HttpGetCall)
    (h : Ev.fetchCall call ∈ (chatHandler w req).2) : call.timeout = none := by
  rw [chatHandler_trace] at h
  rcases List.mem_append.mp h with h | h
  · revert h
    unfold fetchEncyclopedia
    cases req.userId with
    | none => simp
    | some u =>
      by_cases hu : u = ""
      · simp [hu]
      · simp only [hu, if_false, List.mem_singleton]
        intro hc
        simp only [Ev.fetchCall.injEq] at hc
        rw [hc]
        rfl
  · cases hcs : w.clientStart <;> rw [hcs] at h <;> simp at h

/-! ## Witnesses: the hypothesis-bearing theorems at concrete inputs -/

/-- C2 witness: a concrete request whose user-data service answers 503. -/
theorem chat_fetch_failure_not_fatal_witness :
    (fetchEncyclopedia wFetchFail reqEx.userId).1 = none
    ∧ promptUsed wFetchFail reqEx = baseOnlyPrompt wFetchFail.tz (requestTimezone reqEx)
    ∧ (chatHandler wFetchFail reqEx).1
        = (chatHandler wFetchFail { reqEx with userId := none }).1 :=
  chat_fetch_failure_not_fatal wFetchFail reqEx "u1" rfl (by decide) (by decide)

/-- C3 witness: the qualifier for `"America/New_York"` occurs in the
concrete prompt. -/
theorem context_timezone_qualifier_witness :
    IsSubstring (" in " ++ pyReplaceChar '_' ' ' "America/New_York")
      (systemPrompt envEx (some "Soil Type: Loamy") (some "America/New_York")) :=
  (context_timezone_qualifier envEx (some "Soil Type: Loamy") "America/New_York").1
    (by decide) (by decide)

/-- C4 witness: a concrete non-blank knowledge text appears verbatim in a
delimited section of the concrete prompt. -/
theorem context_knowledge_section_witness :
    systemPrompt envEx (some "Soil Type: Loamy") (some "UTC")
      = baseOnlyPrompt envEx (some "UTC") ++ encyclopediaSection "Soil Type: Loamy"
    ∧ IsSubstring "Soil Type: Loamy"
        (systemPrompt envEx (some "Soil Type: Loamy") (some "UTC")) :=
  (context_knowledge_section envEx (some "UTC") (some "Soil Type: Loamy")).2
    "Soil Type: Loamy" rfl (by decide)

/-- C6 witness: a concrete world whose MCP client startup raises. -/
theorem chat_session_failure_is_500_witness :
    (chatHandler wStartFail reqEx).1
      = .httpError 500 ("Error processing chat: " ++ "MCP startup failed")
    ∧ Ev.agentInvoke ∉ (chatHandler wStartFail reqEx).2 :=
  chat_session_failure_is_500 wStartFail reqEx "MCP startup failed" rfl

/-- C7 witness: the concrete session's agent configuration. -/
theorem chat_agent_configuration_witness :
    agentUsed wEx reqEx = some (makeGraphAgent wEx.tz ["get_plants"]
        (fetchEncyclopedia wEx reqEx.userId).1 (requestTimezone reqEx))
    ∧ ∀ a, agentUsed wEx reqEx = some a →
        a.tools = ["get_plants"] ∧ a.llm.temperature = 0
        ∧ a.llm.system = promptUsed wEx reqEx :=
  chat_agent_configuration wEx reqEx ["get_plants"] rfl

/-- C8 witness: the concrete successful request's reply is the last
returned message's content. -/
theorem chat_reply_is_last_message_witness :
    ∃ tools messages m,
      wEx.clientStart = .ok tools
      ∧ wEx.invoke (makeGraphAgent wEx.tz tools
          (fetchEncyclopedia wEx reqEx.userId).1 (requestTimezone reqEx)) = .ok messages
      ∧ messages.getLast? = some m
      ∧ "About every two weeks." = m.content :=
  chat_reply_is_last_message wEx reqEx "About every two weeks." (by decide)

/-- C10 witness: a concrete world whose agent returns an empty message
list. -/
theorem chat_empty_messages_500_witness :
    (chatHandler wEmpty reqEx).1
      = .httpError 500 "Error processing chat: list index out of range"
    ∧ ∀ resp, (chatHandler wEmpty reqEx).1 ≠ .success resp :=
  chat_empty_messages_500 wEmpty reqEx ["get_plants"] rfl rfl

/-- C9 amended witness: the concrete request's lookup carries no timeout. -/
theorem fetch_call_has_no_timeout_witness :
    (encyclopediaCall "http://gardenbook-db-api:3001" "u1").timeout = none :=
  fetch_call_has_no_timeout wEx reqEx
    (encyclopediaCall "http://gardenbook-db-api:3001" "u1") (by decide)

end Gardenbook
